import Mathlib

/-!
Verification of the Miro widgets frontend (style.py, widgetstatestore.py).

The definitions below are a shallow embedding of the Python source:
pure functions become Lean functions, the mutable WidgetStateStore becomes
explicit state passing over a `StoreState` record, Python exceptions become
`Except PyErr`, and Python list-object identity (needed for the shared
DEFAULT_COLUMNS lists) is modelled with an arena of lists indexed by `Nat`
references.
-/

namespace Miro

/-- Python-level exceptions that the embedded code can raise. -/
inductive PyErr where
  | keyError
  | valueError
  | attributeError
  | zeroDivision
  deriving DecidableEq, Repr

/-! ## Generic dictionary operations (Python dict as association list) -/

/-- Python `d[k]` lookup returning the value or raising KeyError. -/
def dictGet {K V : Type} [DecidableEq K] (d : List (K × V)) (k : K) :
    Except PyErr V :=
  match d with
  | [] => .error .keyError
  | p :: rest => if p.1 = k then .ok p.2 else dictGet rest k

/-- Python `k in d` membership / `d.get` style lookup returning an Option. -/
def dictFind {K V : Type} [DecidableEq K] (d : List (K × V)) (k : K) :
    Option V :=
  match d with
  | [] => none
  | p :: rest => if p.1 = k then some p.2 else dictFind rest k

/-- Python `d[k] = v` assignment. -/
def dictSet {K V : Type} [DecidableEq K] (d : List (K × V)) (k : K) (v : V) :
    List (K × V) :=
  match d with
  | [] => [(k, v)]
  | p :: rest => if p.1 = k then (k, v) :: rest else p :: dictSet rest k v

/-! ## WidgetStateStore constants (widgetstatestore.py lines 36-120) -/

def LIST_VIEW : Nat := 1
def STANDARD_VIEW : Nat := 0

def FILTER_VIEW_ALL : Nat := 0
def FILTER_UNWATCHED : Nat := 1
def FILTER_NONFEED : Nat := 2
def FILTER_DOWNLOADED : Nat := 4
def DEFAULT_DISPLAY_FILTERS : Nat := FILTER_VIEW_ALL

/-- DEFAULT_SORT_COLUMN; the source aliases sharing/device-video to the
videos entry and device-audio to the music entry.  Strings are immutable in
Python, so the aliasing is observationally irrelevant and the table is
flattened here. -/
def DEFAULT_SORT_COLUMN : List (String × String) :=
  [("videos", "name"), ("music", "artist"), ("others", "name"),
   ("downloading", "eta"), ("all-feeds", "feed-name"), ("feed", "date"),
   ("playlist", "playlist"), ("search", "name"),
   ("sharing", "name"), ("device-video", "name"), ("device-audio", "artist")]

/-- The seven distinct Python list objects stored in DEFAULT_COLUMNS.  The
arena index of each list models its object identity; several display types
alias the same list object (see `DEFAULT_COLUMNS_REF`). -/
def initialArena : List (List String) :=
  [["state", "name", "length", "feed-name", "size"],
   ["state", "name", "artist", "album", "track", "feed-name", "length",
    "genre", "year", "rating"],
   ["name", "feed-name", "size"],
   ["name", "feed-name", "status", "eta", "rate", "torrent-details", "size"],
   ["state", "name", "feed-name", "length", "status", "size", "date"],
   ["state", "name", "length", "status", "size", "date"],
   ["state", "name", "description"]]

/-- DEFAULT_COLUMNS maps each display type to the arena reference of its
(shared, mutable) column list: sharing and device-video alias the videos
list (index 0); device-audio and playlist alias the music list (index 1). -/
def DEFAULT_COLUMNS_REF : List (String × Nat) :=
  [("videos", 0), ("music", 1), ("others", 2), ("downloading", 3),
   ("all-feeds", 4), ("feed", 5), ("search", 6),
   ("sharing", 0), ("device-video", 0), ("device-audio", 1), ("playlist", 1)]

/-- The closed set of display types (keys of the fixed tables). -/
def displayTypes : List String := DEFAULT_COLUMNS_REF.map Prod.fst

/-! ## Store entities -/

/-- Modelled from the spec: `DisplayInfo` from `miro.messages` is not under
src/; per the data model it is keyed by (display_type, display_id) and holds
selected_view, active_filters, list_view_columns and list_view_widths, all
unset on creation.  `list_view_columns` holds an arena reference when set. -/
structure DisplayInfo where
  selected_view : Option Nat := none
  active_filters : Option Nat := none
  list_view_columns : Option Nat := none
  list_view_widths : Option (List (String × Nat)) := none
  deriving DecidableEq, Repr

/-- Modelled from the spec: `ViewInfo` from `miro.messages` is not under
src/; it is keyed by (display_type, display_id, view_type) and holds
sort_state and scroll_position, both unset on creation. -/
structure ViewInfo where
  sort_state : Option String := none
  scroll_position : Option (Int × Int) := none
  deriving DecidableEq, Repr

/-- A persistence message sent to the backend (SaveDisplayState or
SaveViewState; the transport is fire-and-forget, so only the fact that a
message was sent is modelled). -/
inductive SaveMsg where
  | display (display_type display_id : String)
  | view (display_type display_id : String) (view_type : Nat)
  deriving DecidableEq, Repr

/-- The mutable state of a WidgetStateStore instance: the displays and views
dicts, the arena of Python list objects reachable from it, and the log of
persistence messages sent so far. -/
structure StoreState where
  displays : List ((String × String) × DisplayInfo)
  views : List ((String × String × Nat) × ViewInfo)
  arena : List (List String)
  saved : List SaveMsg
  deriving DecidableEq, Repr

/-- A freshly constructed store (displays and views empty). -/
def initialState : StoreState :=
  { displays := [], views := [], arena := initialArena, saved := [] }

/-! ## Store operations (widgetstatestore.py lines 122-309) -/

/-- WidgetStateStore._get_display: get-or-create.  On creation the source
inserts the new DisplayInfo and then calls _save_display_state, which
re-fetches the (now present) entry and sends exactly one SaveDisplayState
message; that call is inlined here. -/
def getDisplay (dt id : String) (s : StoreState) : DisplayInfo × StoreState :=
  match dictFind s.displays (dt, id) with
  | some d => (d, s)
  | none =>
      let d : DisplayInfo := {}
      let s1 : StoreState := { s with displays := dictSet s.displays (dt, id) d }
      ({}, { s1 with saved := s1.saved ++ [SaveMsg.display dt id] })

/-- WidgetStateStore._save_display_state. -/
def saveDisplayState (dt id : String) (s : StoreState) : StoreState :=
  let s1 := (getDisplay dt id s).2
  { s1 with saved := s1.saved ++ [SaveMsg.display dt id] }

/-- WidgetStateStore._get_view: get-or-create, like `getDisplay`. -/
def getView (dt id : String) (vt : Nat) (s : StoreState) :
    ViewInfo × StoreState :=
  match dictFind s.views (dt, id, vt) with
  | some v => (v, s)
  | none =>
      let v : ViewInfo := {}
      let s1 : StoreState := { s with views := dictSet s.views (dt, id, vt) v }
      ({}, { s1 with saved := s1.saved ++ [SaveMsg.view dt id vt] })

/-- WidgetStateStore._save_view_state. -/
def saveViewState (dt id : String) (vt : Nat) (s : StoreState) : StoreState :=
  let s1 := (getView dt id vt s).2
  { s1 with saved := s1.saved ++ [SaveMsg.view dt id vt] }

/-- WidgetStateStore.get_filters. -/
def get_filters (dt id : String) (s : StoreState) : Nat × StoreState :=
  let (d, s1) := getDisplay dt id s
  match d.active_filters with
  | some f => (f, s1)
  | none => (DEFAULT_DISPLAY_FILTERS, s1)

/-- WidgetStateStore.set_selected_view: mutates the display then saves. -/
def set_selected_view (dt id : String) (v : Nat) (s : StoreState) :
    StoreState :=
  let (d, s1) := getDisplay dt id s
  let s2 : StoreState :=
    { s1 with displays :=
        dictSet s1.displays (dt, id) { d with selected_view := some v } }
  saveDisplayState dt id s2

/-- WidgetStateStore.toggle_filter (static). -/
def toggle_filter (filters filter_ : Nat) : Nat :=
  if filter_ = FILTER_VIEW_ALL then filter_ else filters ^^^ filter_

/-- WidgetStateStore.get_columns_enabled.  Returns the arena reference of
the column list: the stored list if set, else the shared default list for
the display type.  Raises ValueError for a non-list view type and KeyError
for a display type absent from DEFAULT_COLUMNS.  State after a raise is not
modelled (the exception propagates out of the store). -/
def get_columns_enabled (dt id : String) (vt : Nat) (s : StoreState) :
    Except PyErr (Nat × StoreState) :=
  if vt = LIST_VIEW then
    let (d, s1) := getDisplay dt id s
    match d.list_view_columns with
    | some r => .ok (r, s1)
    | none =>
        match dictFind DEFAULT_COLUMNS_REF dt with
        | some r => .ok (r, s1)
        | none => .error .keyError
  else .error .valueError

/-- WidgetStateStore.set_columns_enabled: stores the given list reference
(the very object the caller passed) and saves. -/
def set_columns_enabled (dt id : String) (vt : Nat) (enabled : Nat)
    (s : StoreState) : Except PyErr StoreState :=
  if vt = LIST_VIEW then
    let (d, s1) := getDisplay dt id s
    let s2 : StoreState :=
      { s1 with displays :=
          dictSet s1.displays (dt, id) { d with list_view_columns := some enabled } }
    .ok (saveDisplayState dt id s2)
  else .error .valueError

/-- Python `columns_enabled.remove(column)` / `columns_enabled.append(column)`
branch of toggle_column: remove the first occurrence if present, else append. -/
def pyListToggle (l : List String) (c : String) : List String :=
  if c ∈ l then l.erase c else l ++ [c]

/-- WidgetStateStore.toggle_column: fetches the enabled list (possibly the
shared default), mutates that list object in place, then stores the same
reference on this display. -/
def toggle_column (dt id : String) (vt : Nat) (col : String)
    (s : StoreState) : Except PyErr StoreState :=
  if vt = LIST_VIEW then
    match get_columns_enabled dt id vt s with
    | .error e => .error e
    | .ok (r, s1) =>
        let s2 : StoreState :=
          { s1 with arena := s1.arena.set r (pyListToggle (s1.arena.getD r []) col) }
        set_columns_enabled dt id vt r s2
  else .error .valueError

/-- Python str.lstrip with a single strip character: drop every leading
occurrence. -/
def lstripDash (str : String) : String :=
  String.mk (str.toList.dropWhile (fun ch => ch == '-'))

/-- WidgetStateStore.get_sort_state.  Falls back to the display type default
when unset; for non-standard views additionally reverts to the default when
the stored column (descending prefix stripped) is not currently enabled. -/
def get_sort_state (dt id : String) (vt : Nat) (s : StoreState) :
    Except PyErr (String × StoreState) :=
  let (v, s1) := getView dt id vt s
  let sort0 : Except PyErr String :=
    match v.sort_state with
    | some k => .ok k
    | none => dictGet DEFAULT_SORT_COLUMN dt
  match sort0 with
  | .error e => .error e
  | .ok key =>
      if vt = STANDARD_VIEW then .ok (key, s1)
      else
        match get_columns_enabled dt id vt s1 with
        | .error e => .error e
        | .ok (r, s2) =>
            let enabled := s2.arena.getD r []
            if lstripDash key ∈ enabled then .ok (key, s2)
            else
              match dictGet DEFAULT_SORT_COLUMN dt with
              | .ok dkey => .ok (dkey, s2)
              | .error e => .error e

/-- WidgetStateStore.set_sort_state. -/
def set_sort_state (dt id : String) (vt : Nat) (key : String)
    (s : StoreState) : StoreState :=
  let (v, s1) := getView dt id vt s
  let s2 : StoreState :=
    { s1 with views :=
        dictSet s1.views (dt, id, vt) { v with sort_state := some key } }
  saveViewState dt id vt s2

/-- WidgetStateStore.get_scroll_position: note that the source performs no
validation of display_type or view_type here. -/
def get_scroll_position (dt id : String) (vt : Nat) (s : StoreState) :
    (Int × Int) × StoreState :=
  let (v, s1) := getView dt id vt s
  match v.scroll_position with
  | some p => (p, s1)
  | none => ((0, 0), s1)

/-- Allocate a fresh Python list object (a caller-constructed list passed
into the store, e.g. the argument of set_columns_enabled). -/
def allocList (l : List String) (s : StoreState) : Nat × StoreState :=
  (s.arena.length, { s with arena := s.arena ++ [l] })

/-! ## Item renderer (style.py) -/

/-- A color as its three css hex components in 0..255; the source divides
each component by 255.0 (`css_to_color`), a fixed injective rescaling that
is dropped here to stay in exact arithmetic. -/
abbrev Color := Nat × Nat × Nat

/-- Modelled from the spec: widgetutil.WHITE and widgetutil.BLACK come from
miro.frontends.widgets.widgetutil, which is not under src/. -/
def WHITE : Color := (0xff, 0xff, 0xff)

/-- Modelled from the spec: widgetutil.BLACK, see `WHITE`. -/
def BLACK : Color := (0x00, 0x00, 0x00)

def RESUME_TEXT_COLOR : Color := (0x30, 0x62, 0x19)
def RESUME_TEXT_SHADOW : Color := WHITE
def UNPLAYED_TEXT_COLOR : Color := (0xd8, 0xff, 0xc7)
def UNPLAYED_TEXT_SHADOW : Color := BLACK
def NEWLY_AVAILABLE_TEXT_COLOR : Color := (0xe1, 0xef, 0xff)
def NEWLY_AVAILABLE_TEXT_SHADOW : Color := BLACK
def DRM_TEXT_COLOR : Color := (0x58, 0x20, 0x16)
def DRM_TEXT_SHADOW : Color := WHITE
def QUEUED_TEXT_COLOR : Color := (0x4a, 0x2c, 0x00)
def QUEUED_TEXT_SHADOW : Color := WHITE
def FAILED_TEXT_COLOR : Color := (0xff, 0xe7, 0xe7)
def FAILED_TEXT_SHADOW : Color := BLACK

def EMBLEM_TEXT_PAD_END : Nat := 20
def EMBLEM_TEXT_PAD_END_SMALL : Nat := 6
def ITEM_MIN_WIDTH : Nat := 600
def ITEM_HEIGHT : Nat := 147

/-- The download_info sub-object of an item (fields read by style.py). -/
structure DownloadInfo where
  state : String := ""
  downloaded_size : Int := 0
  total_size : Int := 0
  short_reason_failed : String := ""
  torrent : Bool := false
  deriving DecidableEq, Repr

/-- The item data object (`self.info`): the fields of the external data
contract that the embedded operations read. -/
structure ItemInfo where
  id : Nat := 0
  name : String := ""
  state : String := ""
  download_info : Option DownloadInfo := none
  has_drm : Bool := false
  pending_auto_dl : Bool := false
  downloaded : Bool := false
  is_playable : Bool := false
  video_watched : Bool := false
  item_viewed : Bool := false
  resume_time : Int := 0
  file_type : String := ""
  size : Int := 0
  feed_name : String := ""
  description_stripped : String × List (Nat × Nat × String) := ("", [])
  children : Bool := false
  mime_type : String := ""
  deriving DecidableEq, Repr

/-- Snapshot of the ambient globals read during emblem derivation:
app.playback_manager and the three resume preferences from app.config. -/
structure PlaybackEnv where
  playing_id : Option Nat := none
  is_paused : Bool := false
  resume_podcasts : Bool := true
  resume_videos : Bool := true
  resume_music : Bool := true
  deriving DecidableEq, Repr

/-- app.playback_manager.is_playing_id. -/
def is_playing_id (env : PlaybackEnv) (i : Nat) : Bool :=
  env.playing_id == some i

/-- The attributes _calc_emblem_parts sets on the drawer: text, bold flag,
colors, icon image name, right margin and emblem background key.  In the
no-match case the source leaves text and image at None and the stale emblem
key is never read, so the fresh-initial values are used. -/
structure EmblemParts where
  text : Option String := none
  text_bold : Bool := false
  text_color : Option Color := none
  text_shadow : Option Color := none
  image : Option String := none
  margin_right : Nat := EMBLEM_TEXT_PAD_END
  emblem : Option String := none
  deriving DecidableEq, Repr

/-- Modelled from the spec: displaytext.short_time_string (miro.displaytext
is not under src/) formats a resume time for display; the exact format does
not affect any claim, so the model renders the raw number of seconds. -/
def short_time_string (secs : Int) : String := toString secs

/-- _EmblemDrawer.should_resume_item (style.py lines 1207-1217). -/
def should_resume_item (is_podcast : Bool) (env : PlaybackEnv)
    (info : ItemInfo) : Bool :=
  let resume_pref :=
    if is_podcast then env.resume_podcasts
    else if info.file_type == "video" then env.resume_videos
    else env.resume_music
  info.is_playable && info.item_viewed && decide (info.resume_time > 0)
    && resume_pref

/-- Condition of emblem row 2: `info.download_info and
info.download_info.state == 'failed'`. -/
def download_failed (info : ItemInfo) : Bool :=
  match info.download_info with
  | some di => di.state == "failed"
  | none => false

/-- short_reason_failed of the download info; row 2 is only reached when
`download_failed` holds, so the none branch is never taken there. -/
def failure_reason (info : ItemInfo) : String :=
  match info.download_info with
  | some di => di.short_reason_failed
  | none => ""

def drmRow : EmblemParts :=
  { text := some "DRM locked", text_bold := true,
    text_color := some DRM_TEXT_COLOR, text_shadow := some DRM_TEXT_SHADOW,
    emblem := some "drm" }

def failedRow (info : ItemInfo) : EmblemParts :=
  { text := some ("Error-" ++ failure_reason info), text_bold := true,
    text_color := some FAILED_TEXT_COLOR,
    text_shadow := some FAILED_TEXT_SHADOW,
    image := some "status-icon-alert", emblem := some "failed" }

def queuedRow : EmblemParts :=
  { text := some "Queued for Auto-download",
    text_color := some QUEUED_TEXT_COLOR,
    text_shadow := some QUEUED_TEXT_SHADOW, emblem := some "queued" }

def currentlyPlayingRow : EmblemParts :=
  { text := some "Currently Playing",
    text_color := some UNPLAYED_TEXT_COLOR,
    text_shadow := some UNPLAYED_TEXT_SHADOW, emblem := some "unplayed" }

def unplayedRow : EmblemParts :=
  { text := some "Unplayed", text_bold := true,
    text_color := some UNPLAYED_TEXT_COLOR,
    text_shadow := some UNPLAYED_TEXT_SHADOW, emblem := some "unplayed" }

def resumeRow (info : ItemInfo) : EmblemParts :=
  { text := some ("Resume at " ++ short_time_string info.resume_time),
    text_bold := true, text_color := some RESUME_TEXT_COLOR,
    text_shadow := some RESUME_TEXT_SHADOW,
    margin_right := EMBLEM_TEXT_PAD_END_SMALL, emblem := some "resume" }

def newlyRow : EmblemParts :=
  { text := some "Newly Available", text_bold := true,
    text_color := some NEWLY_AVAILABLE_TEXT_COLOR,
    text_shadow := some NEWLY_AVAILABLE_TEXT_SHADOW,
    margin_right := EMBLEM_TEXT_PAD_END_SMALL, emblem := some "newly" }

/-- _EmblemDrawer._calc_emblem_parts (style.py lines 1136-1205): the strict
if/elif precedence chain. -/
def calc_emblem_parts (is_podcast : Bool) (env : PlaybackEnv)
    (info : ItemInfo) : EmblemParts :=
  if info.has_drm then drmRow
  else if download_failed info then failedRow info
  else if info.pending_auto_dl then queuedRow
  else if info.downloaded && is_playing_id env info.id then
    currentlyPlayingRow
  else if info.downloaded && !info.video_watched && info.is_playable then
    unplayedRow
  else if should_resume_item is_podcast env info then resumeRow info
  else if !info.item_viewed && info.state == "new" then newlyRow
  else {}

/-- The emblem rows in the order the source tests them, each as
(condition, resulting parts). -/
def emblem_rows (is_podcast : Bool) (env : PlaybackEnv) (info : ItemInfo) :
    List (Bool × EmblemParts) :=
  [(info.has_drm, drmRow),
   (download_failed info, failedRow info),
   (info.pending_auto_dl, queuedRow),
   (info.downloaded && is_playing_id env info.id, currentlyPlayingRow),
   (info.downloaded && !info.video_watched && info.is_playable, unplayedRow),
   (should_resume_item is_podcast env info, resumeRow info),
   (!info.item_viewed && info.state == "new", newlyRow)]

/-- First-match-wins selection over a list of (condition, result) rows. -/
def firstMatch {α : Type} : List (Bool × α) → Option α
  | [] => none
  | (c, a) :: rest => if c then some a else firstMatch rest

/-- Result of ItemRenderer.calc_download_mode: the download_mode flag, and
the throbber_mode flag, which the source only assigns when download_mode is
true (`none` = attribute left unassigned on this call). -/
structure DownloadModeResult where
  download_mode : Bool
  throbber_mode : Option Bool
  deriving DecidableEq, Repr

/-- ItemRenderer.calc_download_mode (style.py lines 417-424).  When
download_mode holds, the source reads download_info.downloaded_size and
.total_size; with download_info = None that is an AttributeError. -/
def calc_download_mode (info : ItemInfo) : Except PyErr DownloadModeResult :=
  if info.state == "downloading" || info.state == "paused" then
    match info.download_info with
    | none => .error .attributeError
    | some di =>
        .ok ⟨true, some (decide (di.downloaded_size > 0)
                          && decide (di.total_size < 0))⟩
  else .ok ⟨false, none⟩

/-- What ItemRenderer.draw_progress_bar painted. -/
inductive ProgressDraw where
  | nothing
  | throbber (index : Nat)
  | bar (left_width middle_width right_width : Int)
  deriving DecidableEq, Repr

/-- Pixel widths of the progress-bar cap images; the values come from PNG
assets outside src/, so they are parameters of the model. -/
structure ProgressImages where
  left_cap_width : Int
  right_cap_width : Int
  deriving DecidableEq, Repr

/-- Python integer truncation of an exact quotient: `int(a / b)` truncates
toward zero; raises ZeroDivisionError when b = 0. -/
def pydiv (a b : Int) : Except PyErr Int :=
  if b = 0 then .error .zeroDivision else .ok (Int.tdiv a b)

/-- ItemRenderer.draw_progress_bar together with draw_progress_throbber
(style.py lines 981-1011).  The source checks throbber_mode first, then
returns without drawing when info.size == 0, and otherwise computes
progress_width = int(width * downloaded_size / size) and splits it over the
left cap, middle and right cap images. -/
def draw_progress_bar (throbber_mode : Bool) (throbber_value : Nat)
    (imgs : ProgressImages) (info : ItemInfo) (width : Int) :
    Except PyErr ProgressDraw := do
  if throbber_mode then
    return .throbber (throbber_value % 5)
  if info.size = 0 then
    return .nothing
  let di ← (match info.download_info with
            | some di => Except.ok di
            | none => Except.error PyErr.attributeError)
  let progress_width ← pydiv (width * di.downloaded_size) info.size
  let left_width := min imgs.left_cap_width progress_width
  let right_width := max 0 (progress_width - (width - imgs.right_cap_width))
  let middle_width := max 0 (progress_width - left_width - right_width)
  return .bar left_width middle_width right_width

/-- ItemRenderer.add_description_preface (style.py lines 609-615): returns
(length, preface text); an empty feed name is falsy, so the preface is
omitted rather than erroring. -/
def add_description_preface (display_channel : Bool) (info : ItemInfo) :
    Nat × String :=
  if display_channel && !(info.feed_name == "") then
    let feed_preface := info.feed_name ++ ": "
    (feed_preface.length, feed_preface)
  else (0, "")

/-- PlaylistItemRenderer.add_description_preface (style.py lines 1262-1269).
description_stripped is the (text, links) pair produced by HTMLStripper, so
`description_stripped[0]` is the text, whose truthiness picks the preface
shape; a zero-length description yields the bare order number, never an
error. -/
def playlist_add_description_preface (sort_key : Nat) (info : ItemInfo) :
    Nat × String :=
  let order_number := sort_key + 1
  let preface :=
    if !(info.description_stripped.1 == "") then
      toString order_number ++ " - "
    else toString order_number
  (preface.length, preface)

/-- The data-contract invariant justifying the "reachable" qualifier of the
renderer safety claim: an item in an active transfer state carries its
download_info (the state field of ItemInfo is derived from the downloader
object that download_info wraps). -/
def reachable (info : ItemInfo) : Prop :=
  (info.state = "downloading" ∨ info.state = "paused") →
    info.download_info.isSome

/-! ## Rating renderer (style.py lines 1556-1613) -/

def ICON_HORIZONTAL_SPACING : Nat := 2
def RATING_ICON_COUNT : Nat := 5
def rating_icon_width : Nat := 9

/-- RatingRenderer.icon_index_at_x: translate x by half the spacing, then
map to a 1-based icon index when within the padded icon run. -/
def icon_index_at_x (x : Int) : Option Nat :=
  let icon_width_with_pad : Int := rating_icon_width + ICON_HORIZONTAL_SPACING
  let x2 := x + (ICON_HORIZONTAL_SPACING : Int) / 2
  if 0 ≤ x2 ∧ x2 < icon_width_with_pad * RATING_ICON_COUNT then
    some ((x2 / icon_width_with_pad).toNat + 1)
  else none

/-! ## Concrete inputs used by witnesses and counterexamples -/

/-- A synthetic item that satisfies both the DRM condition (emblem row 1)
and the downloaded-unplayed condition (emblem row 5). -/
def drmUnplayedInfo : ItemInfo :=
  { id := 1, has_drm := true, downloaded := true, is_playable := true,
    video_watched := false }

/-- A downloading item whose total size is still unknown (size field 0,
download_info total_size negative, some bytes already downloaded). -/
def unknownSizeDownloadInfo : ItemInfo :=
  { id := 2, state := "downloading", size := 0,
    download_info :=
      some { state := "downloading", downloaded_size := 5, total_size := -1 } }

/-- Column list containing artist that the C6 scenario passes to
set_columns_enabled. -/
def videosColsWithArtist : List String :=
  ["state", "name", "artist", "length", "feed-name", "size"]

/-- Column list without artist for the second half of the C6 scenario. -/
def videosColsWithoutArtist : List String :=
  ["state", "name", "length", "feed-name", "size"]

/-- The sort-state scenario of the spec run against a fresh store: read the
never-set sort state of a videos list view, store a column set containing
artist, sort by artist and read it back, then store a column set without
artist and read the sort state once more. -/
def sortStateScenario : Except PyErr (String × String × String) := do
  let (sort1, s1) ← get_sort_state "videos" "a" LIST_VIEW initialState
  let (r1, s2) := allocList videosColsWithArtist s1
  let s3 ← set_columns_enabled "videos" "a" LIST_VIEW r1 s2
  let s4 := set_sort_state "videos" "a" LIST_VIEW "artist" s3
  let (sort2, s5) ← get_sort_state "videos" "a" LIST_VIEW s4
  let (r2, s6) := allocList videosColsWithoutArtist s5
  let s7 ← set_columns_enabled "videos" "a" LIST_VIEW r2 s6
  let (sort3, _) ← get_sort_state "videos" "a" LIST_VIEW s7
  return (sort1, sort2, sort3)

/-- Result of toggling the rating column on a videos display whose column
set was never explicitly stored (C10 scenario). -/
def toggledDefaultColumns : Except PyErr StoreState :=
  toggle_column "videos" "a" LIST_VIEW "rating" initialState

/-! # Theorems -/

/-- Inserting a key into a dict makes it found with the inserted value. -/
theorem dictFind_dictSet_self {K V : Type} [DecidableEq K]
    (d : List (K × V)) (k : K) (v : V) :
    dictFind (dictSet d k v) k = some v := by
  induction d with
  | nil => simp [dictSet, dictFind]
  | cons p rest ih =>
      by_cases h : p.1 = k
      · simp [dictSet, dictFind, h]
      · simp [dictSet, dictFind, h, ih]

/-- C1: emblem derivation is a strict first-match-wins precedence chain over
the rows DRM, failed, queued, currently-playing, unplayed, resume, newly
(at most one row applies); in particular any item satisfying both the DRM
condition and the unplayed condition gets the DRM emblem (text "DRM locked",
DRM colors, emblem key "drm"), never the unplayed one. -/
theorem emblem_precedence_spec :
    (∀ is_podcast env info,
      calc_emblem_parts is_podcast env info =
        (firstMatch (emblem_rows is_podcast env info)).getD {}) ∧
    (∀ is_podcast env info, info.has_drm = true →
      calc_emblem_parts is_podcast env info = drmRow ∧
      (calc_emblem_parts is_podcast env info).text = some "DRM locked" ∧
      (calc_emblem_parts is_podcast env info).text_color
        = some DRM_TEXT_COLOR ∧
      (calc_emblem_parts is_podcast env info).text_shadow
        = some DRM_TEXT_SHADOW ∧
      (calc_emblem_parts is_podcast env info).emblem = some "drm" ∧
      calc_emblem_parts is_podcast env info ≠ unplayedRow) := by
  constructor
  · intro p env info
    unfold calc_emblem_parts emblem_rows
    generalize info.has_drm = b1
    generalize download_failed info = b2
    generalize info.pending_auto_dl = b3
    generalize (info.downloaded && is_playing_id env info.id) = b4
    generalize (info.downloaded && !info.video_watched && info.is_playable)
      = b5
    generalize should_resume_item p env info = b6
    generalize (!info.item_viewed && info.state == "new") = b7
    cases b1 <;> cases b2 <;> cases b3 <;> cases b4 <;> cases b5 <;>
      cases b6 <;> cases b7 <;> rfl
  · intro p env info h
    have hc : calc_emblem_parts p env info = drmRow := by
      simp [calc_emblem_parts, h]
    rw [hc]
    exact ⟨rfl, rfl, rfl, rfl, rfl, by decide⟩

/-- Witness for emblem_precedence_spec: a concrete item matching both row 1
and row 5 resolves to the DRM row. -/
theorem emblem_precedence_spec_witness :
    calc_emblem_parts false {} drmUnplayedInfo = drmRow ∧
    calc_emblem_parts false {} drmUnplayedInfo ≠ unplayedRow :=
  ⟨(emblem_precedence_spec.2 false {} drmUnplayedInfo rfl).1,
   (emblem_precedence_spec.2 false {} drmUnplayedInfo rfl).2.2.2.2.2⟩

/-- C2: download_mode holds iff the item state is "downloading" or "paused",
and within download mode throbber_mode holds iff bytes have been downloaded
and the total size is unknown (negative). -/
theorem calc_download_mode_spec (info : ItemInfo) (h : reachable info) :
    ∃ r, calc_download_mode info = .ok r ∧
      (r.download_mode = true ↔
        (info.state = "downloading" ∨ info.state = "paused")) ∧
      (∀ di, info.download_info = some di → r.download_mode = true →
        r.throbber_mode = some (decide (di.downloaded_size > 0)
                                 && decide (di.total_size < 0)) ∧
        (r.throbber_mode = some true ↔
          (di.downloaded_size > 0 ∧ di.total_size < 0))) := by
  by_cases hdm : info.state = "downloading" ∨ info.state = "paused"
  · obtain ⟨di, hdi⟩ := Option.isSome_iff_exists.mp (h hdm)
    refine ⟨⟨true, some (decide (di.downloaded_size > 0)
                         && decide (di.total_size < 0))⟩, ?_, ?_, ?_⟩
    · rcases hdm with h1 | h1 <;> simp [calc_download_mode, h1, hdi]
    · simpa using hdm
    · intro di2 hdi2 _
      rw [hdi] at hdi2
      cases hdi2
      constructor
      · rfl
      · constructor
        · intro ht
          have := Option.some.inj ht
          simp only [Bool.and_eq_true, decide_eq_true_eq] at this
          exact this
        · intro ⟨h1, h2⟩
          simp [h1, h2]
  · push_neg at hdm
    refine ⟨⟨false, none⟩, ?_, ?_, ?_⟩
    · simp [calc_download_mode, hdm.1, hdm.2]
    · simp [hdm.1, hdm.2]
    · intro di hdi hfalse
      cases hfalse

/-- Witness for calc_download_mode_spec at a concrete downloading item. -/
theorem calc_download_mode_spec_witness :
    ∃ r, calc_download_mode unknownSizeDownloadInfo = .ok r ∧
      (r.download_mode = true ↔
        (unknownSizeDownloadInfo.state = "downloading" ∨
         unknownSizeDownloadInfo.state = "paused")) ∧
      (∀ di, unknownSizeDownloadInfo.download_info = some di →
        r.download_mode = true →
        r.throbber_mode = some (decide (di.downloaded_size > 0)
                                 && decide (di.total_size < 0)) ∧
        (r.throbber_mode = some true ↔
          (di.downloaded_size > 0 ∧ di.total_size < 0))) :=
  calc_download_mode_spec unknownSizeDownloadInfo (fun _ => rfl)

/-- C4 counterexample: for an item with size = 0 that is in throbber mode
(a reachable state: download started, total size unknown), the code draws
the indeterminate throbber, so it is false that nothing is drawn regardless
of throbber_mode.  The source tests throbber_mode before the size = 0
early-return. -/
theorem size_zero_throbber_counterexample :
    calc_download_mode unknownSizeDownloadInfo =
      .ok { download_mode := true, throbber_mode := some true } ∧
    unknownSizeDownloadInfo.size = 0 ∧
    draw_progress_bar true 0 ⟨10, 10⟩ unknownSizeDownloadInfo 130 =
      .ok (.throbber 0) ∧
    ProgressDraw.throbber 0 ≠ ProgressDraw.nothing := by
  refine ⟨rfl, rfl, rfl, by decide⟩

/-- C4 amended: when throbber_mode is inactive, an item with size = 0 draws
nothing at all; but the throbber_mode test precedes the size test, so when
throbber_mode is active the throbber is drawn regardless of size. -/
theorem draw_progress_bar_size_zero :
    (∀ tv imgs info w, info.size = 0 →
      draw_progress_bar false tv imgs info w = .ok .nothing) ∧
    (∀ tv imgs info w,
      draw_progress_bar true tv imgs info w = .ok (.throbber (tv % 5))) := by
  constructor
  · intro tv imgs info w h
    simp only [draw_progress_bar, h]
    rfl
  · intro tv imgs info w
    rfl

/-- Witness for draw_progress_bar_size_zero at a concrete size-0 item. -/
theorem draw_progress_bar_size_zero_witness :
    draw_progress_bar false 3 ⟨10, 10⟩ unknownSizeDownloadInfo 130 =
      .ok .nothing :=
  draw_progress_bar_size_zero.1 3 ⟨10, 10⟩ unknownSizeDownloadInfo 130 rfl

/-- C5 counterexample: the rating hit-test at x = 10 returns star index 2,
not index 1 as claimed (the claim contradicts its own formula there:
floor((10 + 2/2) / 11) + 1 = 2). -/
theorem icon_index_at_x_ten_counterexample :
    icon_index_at_x 10 ≠ some 1 ∧ icon_index_at_x 10 = some 2 := by decide

/-- C5 amended: the hit-test maps x to floor((x + spacing/2) /
(icon_width + spacing)) + 1 within the padded icon run of width 55; with
icon_width = 9 and spacing = 2, x = 0 and x = 9 give index 1, x = 10 and
x = 11 give index 2, and x = 55 gives no index. -/
theorem icon_index_at_x_spec :
    icon_index_at_x 0 = some 1 ∧ icon_index_at_x 9 = some 1 ∧
    icon_index_at_x 10 = some 2 ∧ icon_index_at_x 11 = some 2 ∧
    icon_index_at_x 55 = none ∧
    (∀ x : Int, 0 ≤ x + 1 → x + 1 < 55 →
      icon_index_at_x x = some (((x + 1) / 11).toNat + 1)) ∧
    (∀ x : Int, 55 ≤ x + 1 → icon_index_at_x x = none) ∧
    (∀ x : Int, x + 1 < 0 → icon_index_at_x x = none) := by
  refine ⟨by decide, by decide, by decide, by decide, by decide, ?_, ?_, ?_⟩
  · intro x h0 h55
    simp only [icon_index_at_x, rating_icon_width, ICON_HORIZONTAL_SPACING,
      RATING_ICON_COUNT]
    norm_num
    omega
  · intro x h55
    simp only [icon_index_at_x, rating_icon_width, ICON_HORIZONTAL_SPACING,
      RATING_ICON_COUNT]
    norm_num
    omega
  · intro x h0
    simp only [icon_index_at_x, rating_icon_width, ICON_HORIZONTAL_SPACING,
      RATING_ICON_COUNT]
    norm_num
    omega

/-- Witness for icon_index_at_x_spec in each quantified branch. -/
theorem icon_index_at_x_spec_witness :
    icon_index_at_x 33 = some (((33 + 1 : Int) / 11).toNat + 1) ∧
    icon_index_at_x 60 = none ∧ icon_index_at_x (-2) = none :=
  ⟨icon_index_at_x_spec.2.2.2.2.2.1 33 (by norm_num) (by norm_num),
   icon_index_at_x_spec.2.2.2.2.2.2.1 60 (by norm_num),
   icon_index_at_x_spec.2.2.2.2.2.2.2 (-2) (by norm_num)⟩

/-- C7: the view-all filter value is absorbing for toggle_filter, any other
filter toggles by bitwise XOR, toggling FILTER_UNWATCHED from
FILTER_VIEW_ALL yields exactly the unwatched bit, and toggling the same
non-view-all filter twice restores the original mask. -/
theorem toggle_filter_spec :
    (∀ m, toggle_filter m FILTER_VIEW_ALL = FILTER_VIEW_ALL) ∧
    (∀ m f, f ≠ FILTER_VIEW_ALL → toggle_filter m f = m ^^^ f) ∧
    toggle_filter FILTER_VIEW_ALL FILTER_UNWATCHED = FILTER_UNWATCHED ∧
    (∀ m f, f ≠ FILTER_VIEW_ALL →
      toggle_filter (toggle_filter m f) f = m) := by
  refine ⟨fun m => by simp [toggle_filter], fun m f hf => ?_, by decide,
    fun m f hf => ?_⟩
  · simp [toggle_filter, hf]
  · simp [toggle_filter, hf, Nat.xor_cancel_right]

/-- Witness for toggle_filter_spec at mask 5 and filter FILTER_UNWATCHED. -/
theorem toggle_filter_spec_witness :
    toggle_filter 5 FILTER_UNWATCHED = 5 ^^^ FILTER_UNWATCHED ∧
    toggle_filter (toggle_filter 5 FILTER_UNWATCHED) FILTER_UNWATCHED = 5 :=
  ⟨toggle_filter_spec.2.1 5 FILTER_UNWATCHED (by decide),
   toggle_filter_spec.2.2.2 5 FILTER_UNWATCHED (by decide)⟩

/-- C3: the fallible steps of the renderer operations return normally for
every reachable item: calc_download_mode and draw_progress_bar (which the
renderer invokes only in download mode) never raise under the data-contract
invariant `reachable`, a missing feed name omits the description preface,
and a zero-length description degrades to the bare playlist order number. -/
theorem renderer_ops_never_raise :
    (∀ info, reachable info → ∃ r, calc_download_mode info = .ok r) ∧
    (∀ (tm : Bool) (tv : Nat) (imgs : ProgressImages) info (w : Int),
      reachable info →
      (info.state = "downloading" ∨ info.state = "paused") →
      ∃ d, draw_progress_bar tm tv imgs info w = .ok d) ∧
    (∀ dc info, info.feed_name = "" →
      add_description_preface dc info = (0, "")) ∧
    (∀ k info, info.description_stripped.1 = "" →
      playlist_add_description_preface k info =
        ((toString (k + 1)).length, toString (k + 1))) := by
  refine ⟨?_, ?_, ?_, ?_⟩
  · intro info h
    by_cases hdm : info.state = "downloading" ∨ info.state = "paused"
    · obtain ⟨di, hdi⟩ := Option.isSome_iff_exists.mp (h hdm)
      refine ⟨⟨true, some (decide (di.downloaded_size > 0)
                           && decide (di.total_size < 0))⟩, ?_⟩
      rcases hdm with h1 | h1 <;> simp [calc_download_mode, h1, hdi]
    · push_neg at hdm
      exact ⟨⟨false, none⟩, by simp [calc_download_mode, hdm.1, hdm.2]⟩
  · intro tm tv imgs info w h hdm
    cases tm
    · by_cases hz : info.size = 0
      · refine ⟨.nothing, ?_⟩
        simp only [draw_progress_bar, hz]
        rfl
      · obtain ⟨di, hdi⟩ := Option.isSome_iff_exists.mp (h hdm)
        refine ⟨.bar (min imgs.left_cap_width
                        (Int.tdiv (w * di.downloaded_size) info.size))
                  (max 0 (Int.tdiv (w * di.downloaded_size) info.size
                    - min imgs.left_cap_width
                        (Int.tdiv (w * di.downloaded_size) info.size)
                    - max 0 (Int.tdiv (w * di.downloaded_size) info.size
                        - (w - imgs.right_cap_width))))
                  (max 0 (Int.tdiv (w * di.downloaded_size) info.size
                    - (w - imgs.right_cap_width))), ?_⟩
        simp only [draw_progress_bar, hz, hdi, pydiv, if_neg]
        rfl
    · exact ⟨.throbber (tv % 5), rfl⟩
  · intro dc info h
    simp [add_description_preface, h]
  · intro k info h
    simp [playlist_add_description_preface, h]

/-- Witness for renderer_ops_never_raise at concrete reachable items. -/
theorem renderer_ops_never_raise_witness :
    (∃ r, calc_download_mode unknownSizeDownloadInfo = .ok r) ∧
    (∃ d, draw_progress_bar false 0 ⟨10, 10⟩ unknownSizeDownloadInfo 130
      = .ok d) ∧
    add_description_preface true ({} : ItemInfo) = (0, "") ∧
    playlist_add_description_preface 4 ({} : ItemInfo) =
      ((toString (4 + 1)).length, toString (4 + 1)) :=
  ⟨renderer_ops_never_raise.1 unknownSizeDownloadInfo (fun _ => rfl),
   renderer_ops_never_raise.2.1 false 0 ⟨10, 10⟩ unknownSizeDownloadInfo 130
     (fun _ => rfl) (Or.inl rfl),
   renderer_ops_never_raise.2.2.1 true ({} : ItemInfo) rfl,
   renderer_ops_never_raise.2.2.2 4 ({} : ItemInfo) rfl⟩

/-- C6: on a fresh store, get_sort_state for display type videos returns the
configured default "name"; after set_sort_state "artist" (with artist among
the enabled columns) it returns "artist"; once artist is no longer among the
enabled columns of the list view it reverts to "name"; and for every display
type in the fixed tables a never-set view returns that display type default
sort column, in both view types. -/
theorem get_sort_state_spec :
    sortStateScenario = .ok ("name", "artist", "name") ∧
    (displayTypes.all fun dt =>
      decide ((get_sort_state dt "x" STANDARD_VIEW initialState).toOption.map
          Prod.fst = (dictGet DEFAULT_SORT_COLUMN dt).toOption)) = true ∧
    (displayTypes.all fun dt =>
      decide ((get_sort_state dt "x" LIST_VIEW initialState).toOption.map
          Prod.fst = (dictGet DEFAULT_SORT_COLUMN dt).toOption)) = true := by
  refine ⟨rfl, rfl, rfl⟩

/-- C8 counterexample: the first access to a fresh (display_type,
display_id) pair through a setter triggers two save-display-state calls
before the operation returns (one from lazy creation, one from the setter
mutation), not exactly one. -/
theorem setter_double_save_counterexample :
    (set_selected_view "videos" "99" STANDARD_VIEW initialState).saved =
      [SaveMsg.display "videos" "99", SaveMsg.display "videos" "99"] ∧
    ([SaveMsg.display "videos" "99",
      SaveMsg.display "videos" "99"].length ≠ 1) :=
  ⟨rfl, by decide⟩

/-- C8 amended: the first access to an absent (display_type, display_id)
pair creates the entity with default (unset) fields; the creation triggers
exactly one save-display-state call, so a getter on a fresh key emits
exactly one save before returning, while a setter emits the creation save
plus its own mutation save (two in total); a subsequent access finds the
entity and triggers no further creation save. -/
theorem lazy_create_saves_spec (s : StoreState) (dt id : String) (v : Nat)
    (h : dictFind s.displays (dt, id) = none) :
    (get_filters dt id s).1 = DEFAULT_DISPLAY_FILTERS ∧
    (get_filters dt id s).2.saved = s.saved ++ [SaveMsg.display dt id] ∧
    dictFind (get_filters dt id s).2.displays (dt, id)
      = some ({} : DisplayInfo) ∧
    get_filters dt id (get_filters dt id s).2 =
      (DEFAULT_DISPLAY_FILTERS, (get_filters dt id s).2) ∧
    (set_selected_view dt id v s).saved =
      s.saved ++ [SaveMsg.display dt id, SaveMsg.display dt id] := by
  refine ⟨?_, ?_, ?_, ?_, ?_⟩
  · simp [get_filters, getDisplay, h]
  · simp [get_filters, getDisplay, h]
  · simp [get_filters, getDisplay, h, dictFind_dictSet_self]
  · simp [get_filters, getDisplay, h, dictFind_dictSet_self]
  · simp [set_selected_view, getDisplay, saveDisplayState, h,
      dictFind_dictSet_self]

/-- Witness for lazy_create_saves_spec on a fresh store. -/
theorem lazy_create_saves_spec_witness :
    (get_filters "videos" "w" initialState).1 = DEFAULT_DISPLAY_FILTERS ∧
    (get_filters "videos" "w" initialState).2.saved =
      initialState.saved ++ [SaveMsg.display "videos" "w"] ∧
    dictFind (get_filters "videos" "w" initialState).2.displays
      ("videos", "w") = some ({} : DisplayInfo) ∧
    get_filters "videos" "w" (get_filters "videos" "w" initialState).2 =
      (DEFAULT_DISPLAY_FILTERS, (get_filters "videos" "w" initialState).2) ∧
    (set_selected_view "videos" "w" 0 initialState).saved =
      initialState.saved ++ [SaveMsg.display "videos" "w",
        SaveMsg.display "videos" "w"] :=
  lazy_create_saves_spec initialState "videos" "w" 0 rfl

/-- C9 counterexample: get_scroll_position accepts an unknown display type
together with a view type that is neither list nor standard, silently
returns the default scroll position (0, 0) instead of signalling an
invalid-argument error, and even lazily creates and saves the bogus view. -/
theorem scroll_position_no_validation_counterexample :
    (get_scroll_position "no-such-type" "1" 7 initialState).1 = (0, 0) ∧
    (get_scroll_position "no-such-type" "1" 7 initialState).2.saved =
      [SaveMsg.view "no-such-type" "1" 7] :=
  ⟨rfl, rfl⟩

/-- C9 amended: operations that consult the fixed per-display-type tables or
require a list view do signal errors (ValueError for a non-list view type,
KeyError for a display type outside the closed set), but the scroll-position
accessors perform no validation at all and silently fall back to the
default. -/
theorem store_validation_spec :
    get_columns_enabled "videos" "1" STANDARD_VIEW initialState
      = .error .valueError ∧
    get_columns_enabled "videos" "1" 7 initialState = .error .valueError ∧
    get_columns_enabled "no-such-type" "1" LIST_VIEW initialState
      = .error .keyError ∧
    get_sort_state "no-such-type" "1" STANDARD_VIEW initialState
      = .error .keyError ∧
    get_sort_state "videos" "1" 7 initialState = .error .valueError ∧
    (get_scroll_position "no-such-type" "1" 7 initialState).1 = (0, 0) := by
  refine ⟨rfl, rfl, rfl, rfl, rfl, rfl⟩

/-- C10: for a videos display whose column set was never stored,
get_columns_enabled returns the shared default list object itself (arena
reference 0, the very reference DEFAULT_COLUMNS holds); toggling a column
on that display mutates the shared list in place (no copy is allocated:
the arena size is unchanged), and afterwards a different never-stored
videos display b, and even a sharing display (whose default aliases the
same list object), observe the toggled column set. -/
theorem shared_default_columns_aliasing :
    ((get_columns_enabled "videos" "a" LIST_VIEW initialState).map
        (fun p => p.1) = .ok 0) ∧
    dictFind DEFAULT_COLUMNS_REF "videos" = some 0 ∧
    (toggledDefaultColumns.map (fun s => s.arena.getD 0 []) =
      .ok ["state", "name", "length", "feed-name", "size", "rating"]) ∧
    (toggledDefaultColumns.map (fun s => s.arena.length)
      = .ok initialArena.length) ∧
    (toggledDefaultColumns.map (fun s =>
        (get_columns_enabled "videos" "b" LIST_VIEW s).map
          (fun p => (p.1, p.2.arena.getD p.1 []))) =
      .ok (.ok (0,
        ["state", "name", "length", "feed-name", "size", "rating"]))) ∧
    (toggledDefaultColumns.map (fun s =>
        (get_columns_enabled "sharing" "c" LIST_VIEW s).map
          (fun p => (p.1, p.2.arena.getD p.1 []))) =
      .ok (.ok (0,
        ["state", "name", "length", "feed-name", "size", "rating"]))) := by
  refine ⟨rfl, rfl, rfl, rfl, rfl, rfl⟩

end Miro
